import Mathlib

/-!
Verification of the search-serving and index-synchronization subsystem
(`backend/search-api`): the two-tier cache repository, the Solr query
translator, the search service, and the RabbitMQ consumer.

Conventions of the embedding:
* Go `string` is Lean `String` (`List Char` at the character level where
  character-by-character behaviour matters).
* Go `int`/`uint` are 64-bit two's complement, embedded as `Int` with the
  wrap into the int64 range made explicit (`wrap64`) in the arithmetic
  whose claimed domain reaches the boundary (`computeTotalPages`); the
  remaining integer fields are only compared, never combined
  arithmetically.  Go's truncating integer division is `Int.tdiv`.
* Go `float64` price fields are `ℚ`: every comparison the code performs on
  them (`< 0`, `>`) is exact at the values the claims exercise.
* Fallible Go functions returning `(T, error)` become `Except String T`;
  the external collaborators (Solr, Memcached, the properties API, the
  broker) are modelled by explicit state or outcome oracles following the
  collaborator contracts of the spec (section 6).
-/

/-- Modelled from the spec: the `Listing` record of section 3.  The Go type
`backend/properties-api/domain.Property` is not under `src/`; its field set
and shapes are corroborated by every use site in `src/backend/search-api`
(`mapDocToProperty`, `validateProperty`, JSON tags).  `CreatedAt` is kept
abstract as an integer timestamp; no claim inspects it. -/
structure Property where
  ID : String
  Title : String
  Description : String
  City : String
  Country : String
  PricePerNight : ℚ
  Bedrooms : Int
  Bathrooms : Int
  MaxGuests : Int
  Images : List String
  OwnerID : Int
  Available : Bool
  CreatedAt : Int
deriving DecidableEq

/-- `dto.SearchRequest` (src/backend/search-api/dto, search_controller.go
lines 247-260): the structured search parameters. -/
structure SearchRequest where
  Query : String
  City : String
  Country : String
  MinPrice : ℚ
  MaxPrice : ℚ
  Bedrooms : Int
  Bathrooms : Int
  MinGuests : Int
  Page : Int
  PageSize : Int
  SortBy : String
  SortOrder : String
deriving DecidableEq

/-- The all-zero request a Go `dto.SearchRequest{}` literal denotes (and the
value `parseSearchRequest` builds from an empty query string). -/
def emptySearchRequest : SearchRequest :=
  { Query := "", City := "", Country := "", MinPrice := 0, MaxPrice := 0,
    Bedrooms := 0, Bathrooms := 0, MinGuests := 0, Page := 0, PageSize := 0,
    SortBy := "", SortOrder := "" }

/-- `dto.SearchResponse` (dto/search_response.go). -/
structure SearchResponse where
  Results : List Property
  TotalResults : Int
  Page : Int
  PageSize : Int
  TotalPages : Int
deriving DecidableEq

/-- `cacheData` (cache_repository.go lines 22-25): the value stored per
cache key. -/
structure cacheData where
  Properties : List Property
  Total : Int
deriving DecidableEq

/-! ## Solr query escaping (cache_repository.go lines 540-562)

`escapeSolrQuery` is a chain of `strings.ReplaceAll` calls, one per
special character, the backslash first.  `goReplaceAll old new` embeds
`strings.ReplaceAll(s, old, new)` for a one-character `old`: every
occurrence of `old` is replaced by `new`. -/

def goReplaceAll (old : Char) (new : List Char) : List Char → List Char
  | [] => []
  | c :: rest => (if c = old then new else [c]) ++ goReplaceAll old new rest

/-- The characters escaped by `escapeSolrQuery`, in the order of its
`ReplaceAll` chain (backslash first). -/
def solrSpecialChars : List Char :=
  ['\\', '+', '-', '&', '|', '!', '(', ')', '{', '}', '[', ']',
   '^', '\"', '~', '*', '?', ':']

/-- One `ReplaceAll` step of the chain: replace `c` by backslash-`c`. -/
def escapeStep (s : List Char) (c : Char) : List Char :=
  goReplaceAll c ['\\', c] s

/-- `escapeSolrQuery` (cache_repository.go lines 540-562): the source's
eighteen sequential `strings.ReplaceAll` steps, first doubling backslashes,
then prefixing each later special character with a backslash.  Strings are
handled at the character level here. -/
def escapeSolrQuery (query : List Char) : List Char :=
  solrSpecialChars.foldl escapeStep query

/-- Per-character escaping: what one pass over the input does to a single
character.  Proven below to agree with the sequential `ReplaceAll` chain. -/
def escChar (c : Char) : List Char :=
  if c ∈ solrSpecialChars then ['\\', c] else [c]

/-- Single-pass escaping of a whole string. -/
def escapeAll (s : List Char) : List Char :=
  s.flatMap escChar

/-- The engine-side reading of a backslash-escaped string: a backslash
makes the following character literal.  Used to state that escaping is
semantically the identity on the text. -/
def unescape : List Char → List Char
  | [] => []
  | [c] => [c]
  | c :: d :: rest =>
    if c = '\\' then d :: unescape rest
    else c :: unescape (d :: rest)

/-- The special characters of a string that are NOT protected by a
preceding backslash — exactly the occurrences the engine's query parser
would interpret as syntax (wildcards, grouping, quoting, ...). -/
def unescapedSpecials : List Char → List Char
  | [] => []
  | [c] => if c ∈ solrSpecialChars then [c] else []
  | c :: d :: rest =>
    if c = '\\' then unescapedSpecials rest
    else (if c ∈ solrSpecialChars then [c] else []) ++ unescapedSpecials (d :: rest)

/-- The `q` parameter built by `solrRepository.Search` (cache_repository.go
lines 205-217): free text is escaped and matched against title, city and
country with OR semantics; absent free text matches all documents. -/
def solrTextQuery (query : List Char) : List Char :=
  if query = [] then [ '*', ':', '*' ]
  else "(title:*".data ++ escapeSolrQuery query ++ "* OR city:*".data ++
    escapeSolrQuery query ++ "* OR country:*".data ++ escapeSolrQuery query ++ "*)".data

/-! ## HTTP controller validation (search_controller.go lines 27-202)

The handler `SearchController.Search` first calls `applyDefaults` (line 43)
and only then `validateSearchRequest` (line 46); the request forwarded to
the service is the defaulted one. -/

namespace Controllers

/-- `applyDefaults` (search_controller.go lines 144-157). -/
def applyDefaults (request : SearchRequest) : SearchRequest :=
  { request with
    Page := if request.Page < 1 then 1 else request.Page,
    PageSize := if request.PageSize < 1 then 10 else request.PageSize,
    SortBy := if request.SortBy = "" then "price_per_night" else request.SortBy,
    SortOrder := if request.SortOrder = "" then "asc" else request.SortOrder }

/-- `validateSearchRequest` (search_controller.go lines 160-202).  Returns
the `ValidationError` message of the first failing check. -/
def validateSearchRequest (request : SearchRequest) : Except String Unit :=
  if request.Page < 1 then .error "Page must be >= 1"
  else if request.PageSize < 1 then .error "PageSize must be > 0"
  else if request.PageSize > 100 then .error "PageSize must be <= 100"
  else if request.SortOrder ≠ "" ∧ request.SortOrder ≠ "asc" ∧ request.SortOrder ≠ "desc" then
    .error "SortOrder must be asc or desc"
  else if request.MinPrice < 0 then .error "MinPrice cannot be negative"
  else if request.MaxPrice < 0 then .error "MaxPrice cannot be negative"
  else if request.MinPrice > 0 ∧ request.MaxPrice > 0 ∧ request.MinPrice > request.MaxPrice then
    .error "MinPrice cannot be greater than MaxPrice"
  else if request.Bedrooms < 0 then .error "Bedrooms cannot be negative"
  else if request.Bathrooms < 0 then .error "Bathrooms cannot be negative"
  else if request.MinGuests < 0 then .error "MinGuests cannot be negative"
  else .ok ()

/-- The validation pipeline of the handler `SearchController.Search`
(lines 43-50): defaults first, then validation; on success the defaulted
request is what reaches `service.Search`. -/
def processRequest (request : SearchRequest) : Except String SearchRequest :=
  let defaulted := applyDefaults request
  match validateSearchRequest defaulted with
  | .error e => .error e
  | .ok _ => .ok defaulted

end Controllers

/-- Two's-complement wrap of an integer into the 64-bit range, the effect
of Go int64 arithmetic on an out-of-range mathematical result.  The
numerals are 2^63 and 2^64. -/
def wrap64 (n : Int) : Int :=
  (n + 9223372036854775808) % 18446744073709551616 - 9223372036854775808

/-- Go int64 addition: wraps on overflow. -/
def goAdd64 (a b : Int) : Int := wrap64 (a + b)

/-- Go int64 subtraction: wraps on overflow. -/
def goSub64 (a b : Int) : Int := wrap64 (a - b)

/-- Go int64 division: truncation toward zero; the one overflowing
quotient, minInt64 divided by -1, wraps back to minInt64, which `wrap64`
captures. -/
def goDiv64 (a b : Int) : Int := wrap64 (Int.tdiv a b)

/-! ## Search service (cache_repository.go lines 564-893, package services) -/

namespace SearchSvc

/-- The default-filling block of `searchService.validateSearchRequest`
(cache_repository.go lines 810-822); identical to the controller's
`applyDefaults`. -/
def applyDefaults (request : SearchRequest) : SearchRequest :=
  { request with
    Page := if request.Page < 1 then 1 else request.Page,
    PageSize := if request.PageSize < 1 then 10 else request.PageSize,
    SortBy := if request.SortBy = "" then "price_per_night" else request.SortBy,
    SortOrder := if request.SortOrder = "" then "asc" else request.SortOrder }

/-- `searchService.validateSearchRequest` (cache_repository.go lines
808-852).  The Go function mutates the request in place through a pointer;
the embedding returns the defaulted request on success.  Note: it has no
upper bound on `PageSize`. -/
def validateSearchRequest (request : SearchRequest) : Except String SearchRequest :=
  let r := applyDefaults request
  if r.SortOrder ≠ "asc" ∧ r.SortOrder ≠ "desc" then
    .error "invalid sort_order: must be asc or desc"
  else if r.MinPrice < 0 then .error "min_price cannot be negative"
  else if r.MaxPrice < 0 then .error "max_price cannot be negative"
  else if r.MinPrice > 0 ∧ r.MaxPrice > 0 ∧ r.MinPrice > r.MaxPrice then
    .error "min_price cannot be greater than max_price"
  else if r.Bedrooms < 0 then .error "bedrooms cannot be negative"
  else if r.Bathrooms < 0 then .error "bathrooms cannot be negative"
  else if r.MinGuests < 0 then .error "min_guests cannot be negative"
  else .ok r

/-- `searchService.validateProperty` (cache_repository.go lines 854-881). -/
def validateProperty (property : Property) : Except String Unit :=
  if property.ID = "" then .error "property ID cannot be empty"
  else if property.Title = "" then .error "property title cannot be empty"
  else if property.City = "" then .error "property city cannot be empty"
  else if property.Country = "" then .error "property country cannot be empty"
  else if property.PricePerNight < 0 then .error "property price_per_night cannot be negative"
  else if property.Bedrooms < 0 then .error "property bedrooms cannot be negative"
  else if property.Bathrooms < 0 then .error "property bathrooms cannot be negative"
  else if property.MaxGuests < 0 then .error "property max_guests cannot be negative"
  else .ok ()

/-- The twelve request fields `generateCacheKey` (cache_repository.go lines
611-632) feeds into the key, in source order.  The Go function renders each
field with `fmt.Sprintf`, joins the parts with a separator and MD5-hashes
the joined string; rendering, joining and MD5 are pure functions of these
twelve fields, so two requests mapping to the same `CacheKey` receive the
identical cache-key string.  The embedding keys the cache by this tuple. -/
structure CacheKey where
  query : String
  city : String
  country : String
  minPrice : ℚ
  maxPrice : ℚ
  bedrooms : Int
  bathrooms : Int
  minGuests : Int
  page : Int
  pageSize : Int
  sortBy : String
  sortOrder : String
deriving DecidableEq

/-- `searchService.generateCacheKey` (cache_repository.go lines 611-632). -/
def generateCacheKey (request : SearchRequest) : CacheKey :=
  { query := request.Query, city := request.City, country := request.Country,
    minPrice := request.MinPrice, maxPrice := request.MaxPrice,
    bedrooms := request.Bedrooms, bathrooms := request.Bathrooms,
    minGuests := request.MinGuests, page := request.Page,
    pageSize := request.PageSize, sortBy := request.SortBy,
    sortOrder := request.SortOrder }

/-- The `TotalPages` computation of `searchService.Search`, written twice in
the source (cache_repository.go lines 651 and 678) as
`(total + pageSize - 1) / pageSize` over Go `int`: left-associated 64-bit
addition and subtraction, each wrapping on overflow, then truncating
64-bit division. -/
def computeTotalPages (total pageSize : Int) : Int :=
  goDiv64 (goSub64 (goAdd64 total pageSize) 1) pageSize

end SearchSvc

/-! ## Two-tier cache repository (cache_repository.go lines 14-137)

The state carries the in-process ccache (`localCache`, items possibly
expired) and, per key, what a Memcached `Get` would answer right now
(`memcached`): a miss, a non-miss error, or a stored byte value that either
parses back to `cacheData` or does not.  The key type is generic: the Go
repository keys by `string`; the search-service model below keys by the
fingerprint tuple. -/

/-- A value stored in Memcached: bytes that either `json.Unmarshal` back to
`cacheData` or are unparseable. -/
inductive MemVal where
  | parsed (data : cacheData)
  | bad
deriving DecidableEq

/-- Outcome of a Memcached `Get` for one key: `ErrCacheMiss`, another
error, or a stored value. -/
inductive MemResp where
  | miss
  | err (msg : String)
  | hit (v : MemVal)
deriving DecidableEq

/-- An entry of the in-process ccache together with its expiry status
(`item.Expired()` at the time of the call). -/
structure LocalItem where
  value : cacheData
  expired : Bool
deriving DecidableEq

/-- The observable state of the two cache tiers. -/
structure CacheState (κ : Type) where
  localCache : κ → Option LocalItem
  memcached : κ → MemResp

/-- The Memcached leg of `cacheRepository.Get` (cache_repository.go lines
59-81), reached on a local miss or expiry: a miss or any error degrades to
not-found; unparseable stored bytes degrade to not-found; a parsed hit
repopulates the local cache (5-minute TTL, hence unexpired) and returns the
value.  The third component records that a network call was made. -/
def cacheGetMem [DecidableEq κ] (st : CacheState κ) (key : κ) :
    (List Property × Int × Bool) × CacheState κ × Bool :=
  match st.memcached key with
  | .miss => (([], 0, false), st, true)
  | .err _ => (([], 0, false), st, true)
  | .hit .bad => (([], 0, false), st, true)
  | .hit (.parsed data) =>
    ((data.Properties, data.Total, true),
     { st with localCache := fun k =>
        if k = key then some ⟨data, false⟩ else st.localCache k }, true)

/-- `cacheRepository.Get` (cache_repository.go lines 49-82): the local tier
is consulted first; an unexpired local hit answers without touching
Memcached. -/
def cacheGet [DecidableEq κ] (st : CacheState κ) (key : κ) :
    (List Property × Int × Bool) × CacheState κ × Bool :=
  match st.localCache key with
  | some item =>
    if item.expired = false then
      ((item.value.Properties, item.value.Total, true), st, false)
    else cacheGetMem st key
  | none => cacheGetMem st key

/-- `cacheRepository.Set` (cache_repository.go lines 85-118): write the
local tier (fixed 5-minute TTL) and Memcached (fixed 15-minute TTL),
ignoring the caller's TTL hint.  Marshalling structured `cacheData` cannot
fail, and a Memcached set error is logged and swallowed (lines 112-115);
the model records the successful-write state. -/
def cacheSet [DecidableEq κ] (st : CacheState κ) (key : κ)
    (properties : List Property) (total : Int) : CacheState κ :=
  let data : cacheData := ⟨properties, total⟩
  { localCache := fun k => if k = key then some ⟨data, false⟩ else st.localCache k,
    memcached := fun k => if k = key then .hit (.parsed data) else st.memcached k }

/-- `cacheRepository.Delete` (cache_repository.go lines 121-137): remove
from both tiers; a Memcached miss on delete is not an error. -/
def cacheDelete [DecidableEq κ] (st : CacheState κ) (key : κ) : CacheState κ :=
  { localCache := fun k => if k = key then none else st.localCache k,
    memcached := fun k => if k = key then .miss else st.memcached k }

/-! ## Solr repository mutations (cache_repository.go lines 338-484)

The engine itself is external; per the collaborator contract (spec section
6) its document store is a map from the unique key `id` to the full
document, a create/update POST is a full-document replace followed by a
commit, and a delete removes the document by id.  The `ok` oracle stands
for the transport/engine outcome of the mutation-plus-commit sequence. -/

def SolrIndex : Type := String → Option Property

/-- Full-document replace of the document keyed `property.ID`, the effect
of `POST /update/json/docs` with the marshalled property plus commit. -/
def upsertProperty (property : Property) (idx : SolrIndex) : SolrIndex :=
  fun i => if i = property.ID then some property else idx i

/-- Removal of the document keyed `propertyID`, the effect of the
delete-by-id command plus commit. -/
def removeProperty (propertyID : String) (idx : SolrIndex) : SolrIndex :=
  fun i => if i = propertyID then none else idx i

/-- `solrRepository.IndexProperty` (cache_repository.go lines 338-387):
marshal the full property, POST it, check the status, commit. -/
def solrIndexProperty (ok : Bool) (property : Property) (idx : SolrIndex) :
    Except String SolrIndex :=
  if ok then .ok (upsertProperty property idx) else .error "solr update failed"

/-- `solrRepository.UpdateProperty` (cache_repository.go lines 389-393):
the body is exactly `return r.IndexProperty(ctx, property)`. -/
def solrUpdateProperty (ok : Bool) (property : Property) (idx : SolrIndex) :
    Except String SolrIndex :=
  solrIndexProperty ok property idx

/-- `solrRepository.DeleteProperty` (cache_repository.go lines 396-450). -/
def solrDeleteProperty (ok : Bool) (propertyID : String) (idx : SolrIndex) :
    Except String SolrIndex :=
  if ok then .ok (removeProperty propertyID idx) else .error "solr delete failed"

/-! ## Search service operations (cache_repository.go lines 564-893) -/


/-- The combined observable state the search service acts on: the two
cache tiers (keyed by the request fingerprint) and the engine's document
store. -/
structure SysState where
  cache : CacheState SearchSvc.CacheKey
  solr : SolrIndex

namespace SearchSvc

/-- `searchService.invalidateCache` (cache_repository.go lines 883-893):
the body only writes a log line — no cache key is deleted; the comment
says invalidation happens naturally when the TTL expires.  The cache state
is returned unchanged. -/
def invalidateCache (cache : CacheState CacheKey) : CacheState CacheKey :=
  cache

/-- `searchService.Search` (cache_repository.go lines 634-688): validate
and default-fill, fingerprint the defaulted request, try the cache, and on
a miss query the engine (`engine` is the oracle for
`solrRepository.Search` against the current index) and populate the
cache.  Both paths compute `TotalPages` the same way. -/
def Search (engine : SolrIndex → SearchRequest → Except String (List Property × Int))
    (st : SysState) (request : SearchRequest) :
    Except String SearchResponse × SysState :=
  match validateSearchRequest request with
  | .error e => (.error ("invalid request: " ++ e), st)
  | .ok r =>
    let cacheKey := generateCacheKey r
    match cacheGet st.cache cacheKey with
    | ((properties, total, true), cache2, _) =>
      (.ok { Results := properties, TotalResults := total, Page := r.Page,
             PageSize := r.PageSize,
             TotalPages := computeTotalPages total r.PageSize },
       { st with cache := cache2 })
    | ((_, _, false), cache2, _) =>
      match engine st.solr r with
      | .error e => (.error ("error searching in Solr: " ++ e), { st with cache := cache2 })
      | .ok (properties, total) =>
        (.ok { Results := properties, TotalResults := total, Page := r.Page,
               PageSize := r.PageSize,
               TotalPages := computeTotalPages total r.PageSize },
         { st with cache := cacheSet cache2 cacheKey properties total })

/-- `searchService.IndexProperty` (cache_repository.go lines 691-712):
validate, index in Solr, then `invalidateCache`. -/
def IndexProperty (solrOk : Bool) (st : SysState) (property : Property) :
    Except String Unit × SysState :=
  match validateProperty property with
  | .error e => (.error ("invalid property: " ++ e), st)
  | .ok _ =>
    match solrIndexProperty solrOk property st.solr with
    | .error e => (.error ("error indexing property in Solr: " ++ e), st)
    | .ok idx2 => (.ok (), { solr := idx2, cache := invalidateCache st.cache })

/-- `searchService.UpdateProperty` (cache_repository.go lines 714-734). -/
def UpdateProperty (solrOk : Bool) (st : SysState) (property : Property) :
    Except String Unit × SysState :=
  match validateProperty property with
  | .error e => (.error ("invalid property: " ++ e), st)
  | .ok _ =>
    match solrUpdateProperty solrOk property st.solr with
    | .error e => (.error ("error updating property in Solr: " ++ e), st)
    | .ok idx2 => (.ok (), { solr := idx2, cache := invalidateCache st.cache })

/-- `searchService.DeleteProperty` (cache_repository.go lines 736-756). -/
def DeleteProperty (solrOk : Bool) (st : SysState) (propertyID : String) :
    Except String Unit × SysState :=
  if propertyID = "" then (.error "property ID cannot be empty", st)
  else
    match solrDeleteProperty solrOk propertyID st.solr with
    | .error e => (.error ("error deleting property from Solr: " ++ e), st)
    | .ok idx2 => (.ok (), { solr := idx2, cache := invalidateCache st.cache })

end SearchSvc

/-! ## Canonical-store fetch (cache_repository.go lines 758-806) -/

/-- The body of a properties-API response: a JSON `Property` or bytes that
fail to unmarshal. -/
inductive FetchBody where
  | propJSON (p : Property)
  | malformed
deriving DecidableEq

/-- Outcome of one HTTP GET against the canonical store: transport failure
or a response with a status code and body. -/
inductive HTTPOutcome where
  | netErr (msg : String)
  | resp (status : Int) (body : FetchBody)
deriving DecidableEq

/-- `searchService.FetchPropertyFromAPI` (cache_repository.go lines
758-806): GET `<base>/properties/<id>`; transport failure, any non-200
status, and an unparseable body each produce an error built from a distinct
format string (lines 781, 788, 800); only the status error carries the
status code.  `http` is the oracle for the outbound call. -/
def FetchPropertyFromAPI (http : String → HTTPOutcome) (baseURL propertyID : String) :
    Except String Property :=
  if propertyID = "" then .error "property ID cannot be empty"
  else
    match http (baseURL ++ "/properties/" ++ propertyID) with
    | .netErr m => .error ("error executing request: " ++ m)
    | .resp status body =>
      if status ≠ 200 then .error ("properties API returned status " ++ toString status)
      else
        match body with
        | .propJSON p => .ok p
        | .malformed => .error "error parsing response"

/-! ## RabbitMQ consumer (config/config.go lines 47-262, package consumers)

A delivered message body is modelled after `json.Unmarshal` into
`PropertyMessage`: `none` when unmarshalling fails, otherwise the parsed
message (absent JSON fields unmarshal to the empty string).  The
`services.SearchService` collaborator the consumer calls is a record of
outcome functions. -/

/-- `PropertyMessage` (config.go lines 48-51). -/
structure PropertyMessage where
  Action : String
  PropertyID : String
deriving DecidableEq

/-- The terminal disposition `processMessage` issues for a delivery:
`msg.Ack(false)`, `msg.Nack(false, true)` (requeue) or
`msg.Nack(false, false)` (no requeue). -/
inductive Disposition where
  | ack
  | nackRequeue
  | nackNoRequeue
deriving DecidableEq

/-- The `services.SearchService` operations the consumer invokes, as
outcome functions. -/
structure ConsumerService where
  fetchPropertyFromAPI : String → Except String Property
  indexProperty : Property → Except String Unit
  updateProperty : Property → Except String Unit
  deleteProperty : String → Except String Unit

/-- `RabbitMQConsumer.handleCreate` (config.go lines 210-228): fetch the
canonical property, then index it; either failure propagates, wrapped. -/
def handleCreate (svc : ConsumerService) (propertyID : String) : Except String Unit :=
  match svc.fetchPropertyFromAPI propertyID with
  | .error e => .error ("failed to fetch property from API: " ++ e)
  | .ok property =>
    match svc.indexProperty property with
    | .error e => .error ("failed to index property: " ++ e)
    | .ok _ => .ok ()

/-- `RabbitMQConsumer.handleUpdate` (config.go lines 231-249). -/
def handleUpdate (svc : ConsumerService) (propertyID : String) : Except String Unit :=
  match svc.fetchPropertyFromAPI propertyID with
  | .error e => .error ("failed to fetch property from API: " ++ e)
  | .ok property =>
    match svc.updateProperty property with
    | .error e => .error ("failed to update property: " ++ e)
    | .ok _ => .ok ()

/-- `RabbitMQConsumer.handleDelete` (config.go lines 252-262). -/
def handleDelete (svc : ConsumerService) (propertyID : String) : Except String Unit :=
  match svc.deleteProperty propertyID with
  | .error e => .error ("failed to delete property: " ++ e)
  | .ok _ => .ok ()

/-- The `switch propertyMsg.Action` of `processMessage` (config.go lines
180-191): `none` models the `default` arm (unrecognized action). -/
def dispatchAction (svc : ConsumerService) (m : PropertyMessage) :
    Option (Except String Unit) :=
  match m.Action with
  | "create" => some (handleCreate svc m.PropertyID)
  | "update" => some (handleUpdate svc m.PropertyID)
  | "delete" => some (handleDelete svc m.PropertyID)
  | _ => none

/-- `RabbitMQConsumer.processMessage` (config.go lines 152-207):
unparseable body → nack without requeue; empty `PropertyID` → nack without
requeue; unrecognized action → nack without requeue; handler failure →
nack with requeue; handler success → ack (an error from `Ack` itself is
only logged, the disposition stays an ack). -/
def processMessage (svc : ConsumerService) (parsed : Option PropertyMessage) :
    Disposition :=
  match parsed with
  | none => .nackNoRequeue
  | some m =>
    if m.PropertyID = "" then .nackNoRequeue
    else
      match dispatchAction svc m with
      | none => .nackNoRequeue
      | some (.error _) => .nackRequeue
      | some (.ok _) => .ack

/-! ## Concrete scenario values used by witnesses and counterexamples -/

/-- A system state with empty caches and an empty engine index. -/
def emptySysState : SysState :=
  { cache := { localCache := fun _ => none, memcached := fun _ => .miss },
    solr := fun _ => none }

/-- A listing that passes `validateProperty`. -/
def sampleProperty : Property :=
  { ID := "42", Title := "Loft", Description := "", City := "Rome",
    Country := "Italy", PricePerNight := 80, Bedrooms := 1, Bathrooms := 1,
    MaxGuests := 2, Images := [], OwnerID := 1, Available := true,
    CreatedAt := 0 }

/-- A system state whose local cache holds a pre-mutation result (an empty
page with total 7) for the fingerprint of the fully-defaulted empty search
request. -/
def stalePropertyState : SysState :=
  { cache :=
      { localCache := fun k =>
          if k = SearchSvc.generateCacheKey (SearchSvc.applyDefaults emptySearchRequest)
          then some ⟨⟨[], 7⟩, false⟩ else none,
        memcached := fun _ => .miss },
    solr := fun _ => none }

/-- Cache-tier scenario: unexpired local hit for key `k`. -/
def cacheStateLocalHit : CacheState String :=
  { localCache := fun k => if k = "k" then some ⟨⟨[], 5⟩, false⟩ else none,
    memcached := fun _ => .miss }

/-- Cache-tier scenario: local miss, Memcached holds a parseable value. -/
def cacheStateDistHit : CacheState String :=
  { localCache := fun _ => none,
    memcached := fun k => if k = "k" then .hit (.parsed ⟨[], 7⟩) else .miss }

/-- Cache-tier scenario: local miss, Memcached errors. -/
def cacheStateDistErr : CacheState String :=
  { localCache := fun _ => none,
    memcached := fun _ => .err "connection refused" }

/-- An HTTP oracle whose canonical store answers 404 (absence) to every
request. -/
def httpNotFound : String → HTTPOutcome := fun _ => .resp 404 .malformed

/-- An HTTP oracle whose canonical store is unreachable. -/
def httpNetFail : String → HTTPOutcome := fun _ => .netErr "connection refused"

/-- The consumer's service wired to a given canonical-store HTTP oracle,
with engine mutations succeeding. -/
def consumerServiceWith (http : String → HTTPOutcome) : ConsumerService :=
  { fetchPropertyFromAPI := FetchPropertyFromAPI http "http://localhost:8081",
    indexProperty := fun _ => .ok (),
    updateProperty := fun _ => .ok (),
    deleteProperty := fun _ => .ok () }

/-- A consumer service whose collaborators all succeed. -/
def okConsumerService : ConsumerService :=
  { fetchPropertyFromAPI := fun _ => .ok sampleProperty,
    indexProperty := fun _ => .ok (),
    updateProperty := fun _ => .ok (),
    deleteProperty := fun _ => .ok () }

/-- Local-tier miss or expiry: the condition under which
`cacheRepository.Get` falls through to Memcached. -/
def localMissOrExpired {κ : Type} (st : CacheState κ) (key : κ) : Prop :=
  st.localCache key = none ∨ ∃ item, st.localCache key = some item ∧ item.expired = true
lemma goReplaceAll_append (old : Char) (new : List Char) (a b : List Char) :
    goReplaceAll old new (a ++ b) = goReplaceAll old new a ++ goReplaceAll old new b := by
  induction a with
  | nil => rfl
  | cons c rest ih => simp [goReplaceAll, ih]

lemma escapeStep_append (a b : List Char) (c : Char) :
    escapeStep (a ++ b) c = escapeStep a c ++ escapeStep b c := by
  simp [escapeStep, goReplaceAll_append]

lemma foldl_escapeStep_append (cs : List Char) (a b : List Char) :
    cs.foldl escapeStep (a ++ b) = cs.foldl escapeStep a ++ cs.foldl escapeStep b := by
  induction cs generalizing a b with
  | nil => rfl
  | cons c cs ih => simp [List.foldl, escapeStep_append, ih]

lemma foldl_escapeStep_singleton_of_not_mem (cs : List Char) (c : Char)
    (hc : c ∉ cs) : cs.foldl escapeStep [c] = [c] := by
  induction cs with
  | nil => rfl
  | cons d cs ih =>
    have hcd : c ≠ d := by intro h; exact hc (h ▸ List.mem_cons_self d cs)
    have hcs : c ∉ cs := fun h => hc (List.mem_cons_of_mem d h)
    simp [List.foldl, escapeStep, goReplaceAll, hcd, ih hcs]

lemma escapeSolrQuery_singleton (c : Char) :
    escapeSolrQuery [c] = escChar c := by
  by_cases hc : c ∈ solrSpecialChars
  · unfold escapeSolrQuery escChar
    rw [if_pos hc]
    fin_cases hc <;> decide
  · unfold escapeSolrQuery escChar
    rw [if_neg hc]
    exact foldl_escapeStep_singleton_of_not_mem solrSpecialChars c hc

/-- The sequential `ReplaceAll` chain of `escapeSolrQuery` is the
single-pass per-character escaping. -/
lemma escapeSolrQuery_eq_escapeAll (s : List Char) :
    escapeSolrQuery s = escapeAll s := by
  induction s with
  | nil => rfl
  | cons c rest ih =>
    have h1 : escapeSolrQuery (c :: rest)
        = escapeSolrQuery [c] ++ escapeSolrQuery rest := by
      have := foldl_escapeStep_append solrSpecialChars [c] rest
      simpa [escapeSolrQuery] using this
    rw [h1, escapeSolrQuery_singleton, ih]
    simp [escapeAll]

lemma backslash_mem_solrSpecialChars : '\\' ∈ solrSpecialChars := by decide

lemma unescape_escapeAll (s : List Char) : unescape (escapeAll s) = s := by
  induction s with
  | nil => rfl
  | cons c rest ih =>
    by_cases hc : c ∈ solrSpecialChars
    · simp only [escapeAll, List.flatMap_cons, escChar, if_pos hc]
      simpa [unescape, escapeAll] using ih
    · have hcb : c ≠ '\\' := fun h => hc (h ▸ backslash_mem_solrSpecialChars)
      simp only [escapeAll, List.flatMap_cons, escChar, if_neg hc]
      cases ht : rest.flatMap escChar with
      | nil =>
        have : unescape (escapeAll rest) = rest := ih
        rw [escapeAll] at this
        rw [ht] at this
        simp [unescape, ← this]
      | cons d t2 =>
        have : unescape (escapeAll rest) = rest := ih
        rw [escapeAll, ht] at this
        simp [unescape, hcb, this]

lemma unescapedSpecials_escapeAll (s : List Char) :
    unescapedSpecials (escapeAll s) = [] := by
  induction s with
  | nil => rfl
  | cons c rest ih =>
    by_cases hc : c ∈ solrSpecialChars
    · simp only [escapeAll, List.flatMap_cons, escChar, if_pos hc]
      simpa [unescapedSpecials, escapeAll] using ih
    · have hcb : c ≠ '\\' := fun h => hc (h ▸ backslash_mem_solrSpecialChars)
      simp only [escapeAll, List.flatMap_cons, escChar, if_neg hc]
      cases ht : rest.flatMap escChar with
      | nil => simp [unescapedSpecials, hc]
      | cons d t2 =>
        have : unescapedSpecials (escapeAll rest) = [] := ih
        rw [escapeAll, ht] at this
        simp [unescapedSpecials, hcb, hc, this]


lemma upsertProperty_idem (p : Property) (idx : SolrIndex) :
    upsertProperty p (upsertProperty p idx) = upsertProperty p idx := by
  funext i
  unfold upsertProperty
  by_cases h : i = p.ID
  · simp [h]
  · simp [h]

lemma wrap64_eq_self (n : Int) (h1 : -9223372036854775808 ≤ n)
    (h2 : n < 9223372036854775808) : wrap64 n = n := by
  unfold wrap64
  omega

lemma goSub64_goAdd64_one (a b : Int) (h1 : 0 ≤ a) (h2 : 1 ≤ b)
    (h3 : a + b - 1 < 9223372036854775808) :
    goSub64 (goAdd64 a b) 1 = a + b - 1 := by
  unfold goSub64 goAdd64 wrap64
  omega

/-- When the numerator `total + pageSize - 1` stays inside int64, none of
the three wrapped operations of `computeTotalPages` wraps (even the
intermediate `total + pageSize` that may momentarily overflow is undone by
the wrapped subtraction of 1), and the computation is the plain truncating
division. -/
lemma computeTotalPages_eq_tdiv (total pageSize : Int) (ht : 0 ≤ total)
    (hp : 1 ≤ pageSize) (hb : total + pageSize - 1 < 9223372036854775808) :
    SearchSvc.computeTotalPages total pageSize
      = Int.tdiv (total + pageSize - 1) pageSize := by
  unfold SearchSvc.computeTotalPages
  rw [goSub64_goAdd64_one total pageSize ht hp hb]
  unfold goDiv64
  have hnum : 0 ≤ total + pageSize - 1 := by omega
  have htd : Int.tdiv (total + pageSize - 1) pageSize
      = (total + pageSize - 1) / pageSize := Int.tdiv_eq_ediv hnum (by omega)
  have hq0 : 0 ≤ (total + pageSize - 1) / pageSize :=
    Int.ediv_nonneg hnum (by omega)
  have hqle : (total + pageSize - 1) / pageSize ≤ total + pageSize - 1 :=
    Int.ediv_le_self pageSize hnum
  rw [htd]
  exact wrap64_eq_self _ (by omega) (by omega)

/-- The overflow-free truncating computation is the mathematical ceiling. -/
lemma tdiv_pred_eq_ceil (total pageSize : Int) (ht : 0 ≤ total)
    (hp : 1 ≤ pageSize) :
    Int.tdiv (total + pageSize - 1) pageSize
      = ⌈(total : ℚ) / (pageSize : ℚ)⌉ := by
  have hnum : 0 ≤ total + pageSize - 1 := by omega
  have hps : 0 ≤ pageSize := by omega
  have hp0 : (0 : ℚ) < (pageSize : ℚ) := by exact_mod_cast hp
  rw [Int.tdiv_eq_ediv hnum hps]
  symm
  rw [Int.ceil_eq_iff]
  have hmod := Int.ediv_add_emod (total + pageSize - 1) pageSize
  have hr0 : 0 ≤ (total + pageSize - 1) % pageSize :=
    Int.emod_nonneg _ (by omega)
  have hrlt : (total + pageSize - 1) % pageSize < pageSize :=
    Int.emod_lt_of_pos _ (by omega)
  have hmodQ : (pageSize : ℚ) * ((total + pageSize - 1) / pageSize : ℤ)
      + ((total + pageSize - 1) % pageSize : ℤ)
      = (total : ℚ) + (pageSize : ℚ) - 1 := by exact_mod_cast hmod
  have hr0Q : (0 : ℚ) ≤ ((total + pageSize - 1) % pageSize : ℤ) := by
    exact_mod_cast hr0
  have hrltQ : (((total + pageSize - 1) % pageSize : ℤ) : ℚ) < (pageSize : ℚ) := by
    exact_mod_cast hrlt
  constructor
  · rw [lt_div_iff₀ hp0]
    have expand : ((((total + pageSize - 1) / pageSize : ℤ) : ℚ) - 1) * (pageSize : ℚ)
        = (pageSize : ℚ) * ((total + pageSize - 1) / pageSize : ℤ) - (pageSize : ℚ) := by
      ring
    rw [expand]
    have hlt : pageSize * ((total + pageSize - 1) / pageSize) - pageSize < total := by
      linarith
    exact_mod_cast hlt
  · rw [div_le_iff₀ hp0]
    have expand : (((total + pageSize - 1) / pageSize : ℤ) : ℚ) * (pageSize : ℚ)
        = (pageSize : ℚ) * ((total + pageSize - 1) / pageSize : ℤ) := by
      ring
    rw [expand]
    have hle : total ≤ pageSize * ((total + pageSize - 1) / pageSize) := by
      linarith
    exact_mod_cast hle

/-! ## Claims -/

/-- Claim C1, counterexample.  The claim says a request with `page=0` is
rejected; in the code `applyDefaults` runs before `validateSearchRequest`
(search_controller.go lines 43-46), so `page=0` is coerced to 1 and the
request is ACCEPTED: the controller pipeline returns the defaulted request,
not a validation error. -/
theorem claim1_counterexample :
    Controllers.processRequest { emptySearchRequest with Page := 0 } =
      .ok { emptySearchRequest with
            Page := 1, PageSize := 10, SortBy := "price_per_night", SortOrder := "asc" } := by
  rfl

/-- Claim C1, amended.  Validation boundaries of the controller pipeline
(defaults applied before validation): `page=0` and `page_size=0` are
coerced to the defaults 1 and 10 and accepted; `page_size=101` is rejected;
`sort_order="sideways"` is rejected; `min_price=10` with `max_price=5` is
rejected; `min_price=5` with `max_price=10` is accepted.  The service-level
validation likewise accepts `page=0` after defaulting. -/
theorem claim1_amended_boundaries :
    Controllers.processRequest { emptySearchRequest with Page := 0 } =
      .ok { emptySearchRequest with
            Page := 1, PageSize := 10, SortBy := "price_per_night", SortOrder := "asc" } ∧
    Controllers.processRequest { emptySearchRequest with PageSize := 0 } =
      .ok { emptySearchRequest with
            Page := 1, PageSize := 10, SortBy := "price_per_night", SortOrder := "asc" } ∧
    Controllers.processRequest { emptySearchRequest with PageSize := 101 } =
      .error "PageSize must be <= 100" ∧
    Controllers.processRequest { emptySearchRequest with SortOrder := "sideways" } =
      .error "SortOrder must be asc or desc" ∧
    Controllers.processRequest { emptySearchRequest with MinPrice := 10, MaxPrice := 5 } =
      .error "MinPrice cannot be greater than MaxPrice" ∧
    Controllers.processRequest { emptySearchRequest with MinPrice := 5, MaxPrice := 10 } =
      .ok { emptySearchRequest with
            MinPrice := 5, MaxPrice := 10, Page := 1, PageSize := 10,
            SortBy := "price_per_night", SortOrder := "asc" } ∧
    SearchSvc.validateSearchRequest { emptySearchRequest with Page := 0 } =
      .ok { emptySearchRequest with
            Page := 1, PageSize := 10, SortBy := "price_per_night", SortOrder := "asc" } := by
  refine ⟨rfl, rfl, ?_, ?_, ?_, rfl, rfl⟩ <;> rfl

/-- Claim C5.  Every engine-reserved special character of the user text is
escaped: the output of `escapeSolrQuery` contains no unescaped special
character (so the embedded text is syntactically inert in the backend
query), and reading the output back through the engine's escape convention
recovers the input exactly (so it matches only literal occurrences — a
user-supplied `*` is `\*`, not a wildcard).  The concrete conjunct shows a
free-text query containing `*`, `(` and `"`. -/
theorem claim5_escaping (s : List Char) :
    unescapedSpecials (escapeSolrQuery s) = [] ∧
    unescape (escapeSolrQuery s) = s ∧
    escapeSolrQuery ['a', '*', '(', '\"'] = ['a', '\\', '*', '\\', '(', '\\', '\"'] := by
  refine ⟨?_, ?_, by decide⟩
  · rw [escapeSolrQuery_eq_escapeAll]
    exact unescapedSpecials_escapeAll s
  · rw [escapeSolrQuery_eq_escapeAll]
    exact unescape_escapeAll s

/-- Claim C4.  The cache fingerprint is a deterministic pure function of
the defaulted request: service validation returns exactly the defaulted
request (which `Search` then fingerprints), equal defaulted requests get
the identical key, and in particular a request with `page=0` and one with
`page=1`, otherwise equal, pass validation to the same defaulted request
and hence the same fingerprint. -/
theorem claim4_fingerprint :
    (∀ (r d : SearchRequest),
       SearchSvc.validateSearchRequest r = .ok d → d = SearchSvc.applyDefaults r) ∧
    (∀ r1 r2 : SearchRequest,
       SearchSvc.applyDefaults r1 = SearchSvc.applyDefaults r2 →
       SearchSvc.generateCacheKey (SearchSvc.applyDefaults r1)
         = SearchSvc.generateCacheKey (SearchSvc.applyDefaults r2)) ∧
    SearchSvc.validateSearchRequest { emptySearchRequest with Page := 0 }
      = SearchSvc.validateSearchRequest { emptySearchRequest with Page := 1 } := by
  refine ⟨?_, ?_, by rfl⟩
  · intro r d h
    simp only [SearchSvc.validateSearchRequest] at h
    split_ifs at h
    all_goals simp_all
  · intro r1 r2 h
    rw [h]

/-- Claim C4, witness: the theorem applied to the requests differing only
in `page=0` versus `page=1`. -/
theorem claim4_witness :
    SearchSvc.generateCacheKey (SearchSvc.applyDefaults { emptySearchRequest with Page := 0 })
      = SearchSvc.generateCacheKey (SearchSvc.applyDefaults { emptySearchRequest with Page := 1 }) ∧
    ({ emptySearchRequest with
       Page := 1, PageSize := 10, SortBy := "price_per_night", SortOrder := "asc" } : SearchRequest)
      = SearchSvc.applyDefaults { emptySearchRequest with Page := 0 } :=
  ⟨claim4_fingerprint.2.1 { emptySearchRequest with Page := 0 }
      { emptySearchRequest with Page := 1 } (by decide),
   claim4_fingerprint.1 { emptySearchRequest with Page := 0 } _ rfl⟩

/-- Claim C9.  Engine update is the same mutation as create:
`solrRepository.UpdateProperty` IS `solrRepository.IndexProperty`
(cache_repository.go line 392), the engine effect is a full-document
replace keyed by the listing id, and replaying the same successful
create/update with the same data leaves the same index (idempotence, no
duplication). -/
theorem claim9_updateIsFullReplace :
    solrUpdateProperty = solrIndexProperty ∧
    (∀ (p : Property) (idx : SolrIndex),
       upsertProperty p (upsertProperty p idx) = upsertProperty p idx) ∧
    (∀ (ok : Bool) (p : Property) (idx idx2 : SolrIndex),
       solrIndexProperty ok p idx = .ok idx2 → solrIndexProperty ok p idx2 = .ok idx2) := by
  refine ⟨rfl, upsertProperty_idem, ?_⟩
  intro ok p idx idx2 h
  cases ok with
  | false => simp [solrIndexProperty] at h
  | true =>
    simp only [solrIndexProperty, if_true] at h ⊢
    have h2 := Except.ok.inj h
    rw [← h2]
    exact congrArg Except.ok (upsertProperty_idem p idx)

/-- Claim C9, witness: replaying the successful indexing of
`sampleProperty` over an empty index returns the once-indexed state
unchanged. -/
theorem claim9_witness :
    solrIndexProperty true sampleProperty
        (upsertProperty sampleProperty (fun _ => none))
      = .ok (upsertProperty sampleProperty (fun _ => none)) :=
  claim9_updateIsFullReplace.2.2 true sampleProperty (fun _ => none) _ rfl

set_option maxHeartbeats 2000000 in
/-- Claim C10.  The service-level validation has no upper bound on
`PageSize`: for any request already satisfying `PageSize ≥ 1`, replacing
`PageSize` by any other value ≥ 1 cannot change whether validation
accepts; concretely `PageSize=101` passes service validation (and is
handed on, inside the returned defaulted request, to fingerprinting and
the engine), while the controller's validation is what rejects 101. -/
theorem claim10_pageSizeUnchecked :
    (∀ (r : SearchRequest) (ps : Int), 1 ≤ r.PageSize → 1 ≤ ps →
       (SearchSvc.validateSearchRequest { r with PageSize := ps }).isOk
         = (SearchSvc.validateSearchRequest r).isOk) ∧
    SearchSvc.validateSearchRequest { emptySearchRequest with PageSize := 101 }
      = .ok { emptySearchRequest with
              Page := 1, PageSize := 101, SortBy := "price_per_night", SortOrder := "asc" } ∧
    Controllers.validateSearchRequest
        (Controllers.applyDefaults { emptySearchRequest with PageSize := 101 })
      = .error "PageSize must be <= 100" := by
  refine ⟨?_, by rfl, by rfl⟩
  intro r ps h1 h2
  have e1 : ¬ ps < 1 := by omega
  have e2 : ¬ r.PageSize < 1 := by omega
  simp only [SearchSvc.validateSearchRequest, SearchSvc.applyDefaults, e1, e2,
    if_false]
  split_ifs <;> rfl

/-- Claim C10, witness: the theorem applied to a well-formed request with
`PageSize = 2` replaced by `PageSize = 101`. -/
theorem claim10_witness :
    (SearchSvc.validateSearchRequest
        { emptySearchRequest with PageSize := 101 }).isOk
      = (SearchSvc.validateSearchRequest
        { emptySearchRequest with PageSize := 2 }).isOk :=
  claim10_pageSizeUnchecked.1 { emptySearchRequest with PageSize := 2 } 101
    (by decide) (by decide)

/-- Claim C2, counterexample.  A concrete run violating the claim: the
local cache holds a pre-mutation result (total 7) for the fingerprint of
the defaulted empty request; `UpdateProperty` succeeds (engine mutated,
`invalidateCache` called), yet the subsequent `Search` for that same
fingerprint still answers the pre-mutation cached result (total 7, empty
page) instead of consulting the engine (whose oracle would now answer one
result). -/
theorem claim2_counterexample :
    (SearchSvc.UpdateProperty true stalePropertyState sampleProperty).1 = .ok () ∧
    (SearchSvc.Search (fun _ _ => .ok ([sampleProperty], 1))
        (SearchSvc.UpdateProperty true stalePropertyState sampleProperty).2
        emptySearchRequest).1
      = .ok { Results := [], TotalResults := 7, Page := 1, PageSize := 10,
              TotalPages := 1 } := by
  exact ⟨rfl, rfl⟩

/-- Claim C2, amended.  The mutations do call `invalidateCache` after a
successful engine mutation, but `invalidateCache` is a no-op (it only logs
and relies on TTL expiry), so the cache state — every tier, every
fingerprint — is unchanged by `IndexProperty`, `UpdateProperty` and
`DeleteProperty`, whether or not the engine mutation succeeds; a
subsequent search with an affected fingerprint therefore returns the
pre-mutation cached result until its TTL expires. -/
theorem claim2_amended_noInvalidation :
    (∀ (solrOk : Bool) (st : SysState) (p : Property),
       (SearchSvc.IndexProperty solrOk st p).2.cache = st.cache) ∧
    (∀ (solrOk : Bool) (st : SysState) (p : Property),
       (SearchSvc.UpdateProperty solrOk st p).2.cache = st.cache) ∧
    (∀ (solrOk : Bool) (st : SysState) (pid : String),
       (SearchSvc.DeleteProperty solrOk st pid).2.cache = st.cache) ∧
    (∀ c : CacheState SearchSvc.CacheKey, SearchSvc.invalidateCache c = c) := by
  refine ⟨?_, ?_, ?_, fun _ => rfl⟩
  · intro solrOk st p
    cases h : SearchSvc.validateProperty p with
    | error e => simp [SearchSvc.IndexProperty, h]
    | ok u =>
      cases solrOk <;>
        simp [SearchSvc.IndexProperty, h, solrIndexProperty, SearchSvc.invalidateCache]
  · intro solrOk st p
    cases h : SearchSvc.validateProperty p with
    | error e => simp [SearchSvc.UpdateProperty, h]
    | ok u =>
      cases solrOk <;>
        simp [SearchSvc.UpdateProperty, h, solrUpdateProperty, solrIndexProperty,
          SearchSvc.invalidateCache]
  · intro solrOk st pid
    by_cases hp : pid = ""
    · simp [SearchSvc.DeleteProperty, hp]
    · cases solrOk <;>
        simp [SearchSvc.DeleteProperty, hp, solrDeleteProperty, SearchSvc.invalidateCache]

/-- Claim C7.  The two-tier `Get`: an unexpired local hit answers from the
local tier with no distributed call and no state change; on local miss or
expiry a parseable distributed hit repopulates the local tier and answers
found; a distributed miss, any distributed error, or an unparseable stored
value all degrade to `found = false` rather than an error. -/
theorem claim7_twoTierGet (st : CacheState String) (key : String) :
    (∀ item : LocalItem, st.localCache key = some item → item.expired = false →
       cacheGet st key = ((item.value.Properties, item.value.Total, true), st, false)) ∧
    (∀ data : cacheData, localMissOrExpired st key →
       st.memcached key = .hit (.parsed data) →
       cacheGet st key =
         ((data.Properties, data.Total, true),
          { st with localCache := fun k =>
              if k = key then some ⟨data, false⟩ else st.localCache k },
          true)) ∧
    (localMissOrExpired st key →
       (st.memcached key = .miss ∨ (∃ m, st.memcached key = .err m) ∨
        st.memcached key = .hit .bad) →
       cacheGet st key = (([], 0, false), st, true)) := by
  refine ⟨?_, ?_, ?_⟩
  · intro item hl he
    simp [cacheGet, hl, he]
  · intro data hm hmem
    rcases hm with h | ⟨item, hit, hexp⟩
    · simp [cacheGet, h, cacheGetMem, hmem]
    · simp [cacheGet, hit, hexp, cacheGetMem, hmem]
  · intro hm hcase
    rcases hm with h | ⟨item, hit, hexp⟩ <;>
      rcases hcase with hc | ⟨m, hc⟩ | hc <;>
        simp_all [cacheGet, cacheGetMem]

/-- Claim C7, witness: the three cases of the theorem at concrete cache
states — unexpired local hit, local miss with parseable distributed hit,
and distributed error. -/
theorem claim7_witness :
    cacheGet cacheStateLocalHit "k" = (([], 5, true), cacheStateLocalHit, false) ∧
    cacheGet cacheStateDistHit "k"
      = (([], 7, true),
         { cacheStateDistHit with localCache := fun k => if k = "k" then some ⟨⟨[], 7⟩, false⟩ else cacheStateDistHit.localCache k },
         true) ∧
    cacheGet cacheStateDistErr "k" = (([], 0, false), cacheStateDistErr, true) :=
  ⟨(claim7_twoTierGet cacheStateLocalHit "k").1 ⟨⟨[], 5⟩, false⟩ rfl rfl,
   (claim7_twoTierGet cacheStateDistHit "k").2.1 ⟨[], 7⟩ (Or.inl rfl) rfl,
   (claim7_twoTierGet cacheStateDistErr "k").2.2 (Or.inl rfl)
     (Or.inr (Or.inl ⟨"connection refused", rfl⟩))⟩

/-- Claim C3.  The consumer's `processMessage` issues one terminal
disposition per delivery (it is a function into `Disposition`), chosen as
the claim says: an unparseable payload, an empty `property_id`, or an
unrecognized action is nacked without requeue; a dispatched handler error
is nacked with requeue; a dispatched handler success is acked.  The last
two conjuncts identify the create handler's error/success with the
canonical fetch and engine mutation outcomes. -/
theorem claim3_dispositions (svc : ConsumerService) :
    processMessage svc none = .nackNoRequeue ∧
    (∀ m : PropertyMessage, m.PropertyID = "" →
       processMessage svc (some m) = .nackNoRequeue) ∧
    (∀ m : PropertyMessage,
       m.Action ≠ "create" → m.Action ≠ "update" → m.Action ≠ "delete" →
       processMessage svc (some m) = .nackNoRequeue) ∧
    (∀ (m : PropertyMessage) (e : String), m.PropertyID ≠ "" →
       dispatchAction svc m = some (.error e) →
       processMessage svc (some m) = .nackRequeue) ∧
    (∀ m : PropertyMessage, m.PropertyID ≠ "" →
       dispatchAction svc m = some (.ok ()) →
       processMessage svc (some m) = .ack) ∧
    (∀ (pid e : String), svc.fetchPropertyFromAPI pid = .error e →
       handleCreate svc pid = .error ("failed to fetch property from API: " ++ e)) ∧
    (∀ (pid : String) (p : Property),
       svc.fetchPropertyFromAPI pid = .ok p → svc.indexProperty p = .ok () →
       handleCreate svc pid = .ok ()) := by
  refine ⟨rfl, ?_, ?_, ?_, ?_, ?_, ?_⟩
  · intro m h
    simp [processMessage, h]
  · intro m h1 h2 h3
    by_cases hp : m.PropertyID = ""
    · simp [processMessage, hp]
    · simp [processMessage, hp, dispatchAction, h1, h2, h3]
  · intro m e h1 h2
    simp [processMessage, h1, h2]
  · intro m h1 h2
    simp [processMessage, h1, h2]
  · intro pid e h
    simp [handleCreate, h]
  · intro pid p h1 h2
    simp [handleCreate, h1, h2]

/-- Claim C3, witness: the four dispositions at concrete services and
messages — success acked, collaborator failure requeued, unknown action
and empty id rejected without requeue. -/
theorem claim3_witness :
    processMessage okConsumerService (some ⟨"create", "42"⟩) = .ack ∧
    processMessage (consumerServiceWith httpNetFail) (some ⟨"update", "42"⟩)
      = .nackRequeue ∧
    processMessage okConsumerService (some ⟨"flip", "42"⟩) = .nackNoRequeue ∧
    processMessage okConsumerService (some ⟨"create", ""⟩) = .nackNoRequeue :=
  ⟨(claim3_dispositions okConsumerService).2.2.2.2.1 ⟨"create", "42"⟩
      (by decide) rfl,
   (claim3_dispositions (consumerServiceWith httpNetFail)).2.2.2.1 ⟨"update", "42"⟩
      "failed to fetch property from API: error executing request: connection refused"
      (by decide) rfl,
   (claim3_dispositions okConsumerService).2.2.1 ⟨"flip", "42"⟩
      (by decide) (by decide) (by decide),
   (claim3_dispositions okConsumerService).2.1 ⟨"create", ""⟩ rfl⟩

/-- Claim C6, counterexample.  A create message whose canonical fetch
answers 404 (the store answered with absence) receives exactly the same
disposition — nack WITH requeue — as one whose fetch fails at the
transport level: the consumer does not decide between not retrying a
not-found and requeueing a transport error; it retries both. -/
theorem claim6_counterexample :
    processMessage (consumerServiceWith httpNotFound) (some ⟨"create", "42"⟩)
      = .nackRequeue ∧
    processMessage (consumerServiceWith httpNetFail) (some ⟨"create", "42"⟩)
      = .nackRequeue := by
  exact ⟨rfl, rfl⟩

/-- Claim C6, amended.  `FetchPropertyFromAPI` does give distinct error
values to the three failure shapes — a non-200 status (the only outcome
carrying the status code, but with no dedicated not-found case: 404 and
500 take the same branch), a transport failure, and an unparseable body —
and returns the property on a 200; but the consumer never inspects the
distinction: every fetch error, a 404 absence included, leads to
nack-with-requeue. -/
theorem claim6_amended_noRetryDecision :
    (∀ (base pid m : String) (status : Int) (body : FetchBody), pid ≠ "" →
       status ≠ 200 →
       FetchPropertyFromAPI (fun _ => .resp status body) base pid
         = .error ("properties API returned status " ++ toString status) ∧
       FetchPropertyFromAPI (fun _ => .netErr m) base pid
         = .error ("error executing request: " ++ m)) ∧
    (∀ (base pid : String) (p : Property), pid ≠ "" →
       FetchPropertyFromAPI (fun _ => .resp 200 (.propJSON p)) base pid = .ok p) ∧
    FetchPropertyFromAPI httpNotFound "http://localhost:8081" "42"
      ≠ FetchPropertyFromAPI httpNetFail "http://localhost:8081" "42" ∧
    (∀ (svc : ConsumerService) (m : PropertyMessage) (e : String),
       m.PropertyID ≠ "" → m.Action = "create" →
       svc.fetchPropertyFromAPI m.PropertyID = .error e →
       processMessage svc (some m) = .nackRequeue) := by
  refine ⟨?_, ?_, ?_, ?_⟩
  · intro base pid m status body hpid hstatus
    constructor
    · simp [FetchPropertyFromAPI, hpid, hstatus]
    · simp [FetchPropertyFromAPI, hpid]
  · intro base pid p hpid
    simp [FetchPropertyFromAPI, hpid]
  · intro h
    have h1 : FetchPropertyFromAPI httpNotFound "http://localhost:8081" "42"
        = .error "properties API returned status 404" := rfl
    have h2 : FetchPropertyFromAPI httpNetFail "http://localhost:8081" "42"
        = .error "error executing request: connection refused" := rfl
    rw [h1, h2] at h
    exact absurd (Except.error.inj h) (by decide)
  · intro svc m e hpid haction hfetch
    simp [processMessage, hpid, dispatchAction, haction, handleCreate, hfetch]

/-- Claim C6, witness: the amended theorem at a 404 answer, a transport
failure, a successful 200 fetch, and the consumer's uniform requeue of a
fetch error. -/
theorem claim6_witness :
    FetchPropertyFromAPI (fun _ => .resp 404 .malformed) "b" "7"
      = .error ("properties API returned status " ++ toString (404 : Int)) ∧
    FetchPropertyFromAPI (fun _ => .netErr "timeout") "b" "7"
      = .error ("error executing request: " ++ "timeout") ∧
    FetchPropertyFromAPI (fun _ => .resp 200 (.propJSON sampleProperty)) "b" "7"
      = .ok sampleProperty ∧
    processMessage (consumerServiceWith httpNotFound) (some ⟨"create", "7"⟩)
      = .nackRequeue :=
  ⟨(claim6_amended_noRetryDecision.1 "b" "7" "timeout" 404 .malformed
      (by decide) (by decide)).1,
   (claim6_amended_noRetryDecision.1 "b" "7" "timeout" 404 .malformed
      (by decide) (by decide)).2,
   claim6_amended_noRetryDecision.2.1 "b" "7" sampleProperty (by decide),
   claim6_amended_noRetryDecision.2.2.2 (consumerServiceWith httpNotFound)
      ⟨"create", "7"⟩ "properties API returned status 404" (by decide) rfl rfl⟩

/-- Claim C8, counterexample.  `total_results` comes from Solr's
`numFound`, a Go `int` whose admissible range reaches 2^63 - 1, so the
claim's domain "all total_results ≥ 0" includes inputs where the program's
64-bit `(total + pageSize - 1) / pageSize` wraps: at `total = 2^63 - 1`
with the default page size 10 the computation wraps negative and is not
the ceiling (which is positive). -/
theorem claim8_counterexample :
    SearchSvc.computeTotalPages 9223372036854775807 10 = -922337203685477580 ∧
    SearchSvc.computeTotalPages 9223372036854775807 10
      ≠ ⌈((9223372036854775807 : Int) : ℚ) / ((10 : Int) : ℚ)⌉ := by
  constructor
  · decide
  · intro heq
    have hval : SearchSvc.computeTotalPages 9223372036854775807 10
        = -922337203685477580 := by decide
    have hpos : (0 : ℚ) < ((9223372036854775807 : Int) : ℚ) / ((10 : Int) : ℚ) := by
      norm_num
    have hc := Int.ceil_pos.mpr hpos
    rw [heq] at hval
    omega

/-- Claim C8, amended.  Every successful search response — cache-hit path
and engine path alike — carries
`TotalPages = computeTotalPages TotalResults PageSize`, and the 64-bit
computation `(total + pageSize - 1) / pageSize` equals the mathematical
ceiling of `total / pageSize` for every `total ≥ 0` and `pageSize ≥ 1`
whose numerator `total + pageSize - 1` stays within int64 (below 2^63);
beyond that the int64 arithmetic wraps and the identity fails. -/
theorem claim8_totalPages :
    (∀ (engine : SolrIndex → SearchRequest → Except String (List Property × Int))
       (st : SysState) (request : SearchRequest) (resp : SearchResponse),
       (SearchSvc.Search engine st request).1 = .ok resp →
       resp.TotalPages = SearchSvc.computeTotalPages resp.TotalResults resp.PageSize) ∧
    (∀ total pageSize : Int, 0 ≤ total → 1 ≤ pageSize →
       total + pageSize - 1 < 9223372036854775808 →
       SearchSvc.computeTotalPages total pageSize = ⌈(total : ℚ) / (pageSize : ℚ)⌉) := by
  constructor
  · intro engine st request resp h
    unfold SearchSvc.Search at h
    cases hv : SearchSvc.validateSearchRequest request with
    | error e => rw [hv] at h; simp at h
    | ok r =>
      rw [hv] at h
      dsimp only at h
      rcases hcg : cacheGet st.cache (SearchSvc.generateCacheKey r) with
        ⟨⟨props, total, found⟩, cache2, net⟩
      rw [hcg] at h
      cases found with
      | true =>
        dsimp only at h
        simp only [Except.ok.injEq] at h
        rw [← h]
      | false =>
        dsimp only at h
        cases he : engine st.solr r with
        | error e => rw [he] at h; simp at h
        | ok pr =>
          obtain ⟨props2, total2⟩ := pr
          rw [he] at h
          dsimp only at h
          simp only [Except.ok.injEq] at h
          rw [← h]
  · intro total pageSize ht hp hb
    rw [computeTotalPages_eq_tdiv total pageSize ht hp hb]
    exact tdiv_pred_eq_ceil total pageSize ht hp

/-- Claim C8, witness: the theorem at a concrete cache-hit response
(total 0, page size 10) and at the concrete overflow-free division 7 over
3. -/
theorem claim8_witness :
    ({ Results := [], TotalResults := 0, Page := 1, PageSize := 10,
       TotalPages := 0 } : SearchResponse).TotalPages
      = SearchSvc.computeTotalPages
          ({ Results := [], TotalResults := 0, Page := 1, PageSize := 10,
             TotalPages := 0 } : SearchResponse).TotalResults
          ({ Results := [], TotalResults := 0, Page := 1, PageSize := 10,
             TotalPages := 0 } : SearchResponse).PageSize ∧
    SearchSvc.computeTotalPages 7 3 = ⌈((7 : Int) : ℚ) / ((3 : Int) : ℚ)⌉ :=
  ⟨claim8_totalPages.1 (fun _ _ => .ok ([], 0)) emptySysState emptySearchRequest
      { Results := [], TotalResults := 0, Page := 1, PageSize := 10, TotalPages := 0 }
      rfl,
   claim8_totalPages.2 7 3 (by decide) (by decide) (by decide)⟩
